import Mathlib

/-
Verification development for the jinko language front end.

The source files under verification are:
  src/parser/shunting_yard.rs, src/parser/constructs.rs,
  src/instruction/type_instantiation.rs, src/instruction/type_id.rs,
  src/builtins.rs, src/error/mod.rs.

Rust strings are embedded as lists of characters; nom's IResult<&str, T>
becomes Except NomErr (Str × T), where NomErr distinguishes nom's
recoverable Err::Error from its fatal, alternatives-aborting Err::Failure.
Parts of the repository that the sources reference but that are not in
scope (the Token lexers of parser/tokens.rs, instruction::Operator,
crate::utils::{Stack, Queue}, BoxConstruct, the Interpreter/Context and
TypeDec) are modelled from the specification; each such definition carries
a doc comment starting with "Modelled from the spec:".
-/

namespace Jinko

/-- Rust &str input, embedded as a list of characters. -/
abbrev Str := List Char

/-- The nom::error::ErrorKind values used by the sources. -/
inductive ErrorKind where
  | OneOf
  | Many0
  | Many1
  | Tag
  | Char
  | Digit
  | Alpha
deriving DecidableEq, Repr

/-- A nom error: Err::Error is recoverable (alternatives may still be tried),
Err::Failure is fatal and aborts alternations. Both carry the (&str, ErrorKind)
payload the sources construct. -/
inductive NomErr where
  | error (msg : String) (kind : ErrorKind)
  | failure (msg : String) (kind : ErrorKind)
deriving DecidableEq, Repr

/-- True for nom's Err::Error, false for Err::Failure. -/
def NomErr.isRecoverable : NomErr → Bool
  | .error _ _ => true
  | .failure _ _ => false

/-- nom's opt combinator: swallows recoverable errors, propagates failures. -/
def opt {α : Type} (p : Str → Except NomErr (Str × α)) (i : Str) :
    Except NomErr (Str × Option α) :=
  match p i with
  | .ok (i2, v) => .ok (i2, some v)
  | .error (NomErr.error _ _) => .ok (i, none)
  | .error e => .error e

/-- nom's alt combinator on two branches: tries q only when p fails
recoverably; an Err::Failure from p is returned immediately. -/
def alt2 {α : Type} (p q : Str → Except NomErr (Str × α)) (i : Str) :
    Except NomErr (Str × α) :=
  match p i with
  | .error (NomErr.error _ _) => q i
  | r => r

/-- Fuel-driven body of nom's many0. The fuel passed by many0 is
input.length + 1, which is enough for any parser that consumes input on
success (all parsers in this development do); nom itself rejects a
non-consuming inner parse with ErrorKind::Many0, mirrored here. -/
def many0Go {α : Type} (p : Str → Except NomErr (Str × α)) :
    Nat → Str → Except NomErr (Str × List α)
  | 0, input => .ok (input, [])
  | fuel + 1, input =>
    match p input with
    | .error (NomErr.error _ _) => .ok (input, [])
    | .error e => .error e
    | .ok (input2, v) =>
      if input2 = input then .error (NomErr.error "many0" ErrorKind.Many0)
      else
        match many0Go p fuel input2 with
        | .error e => .error e
        | .ok (input3, vs) => .ok (input3, v :: vs)

/-- nom's many0 combinator. -/
def many0 {α : Type} (p : Str → Except NomErr (Str × α)) (input : Str) :
    Except NomErr (Str × List α) :=
  many0Go p (input.length + 1) input

/-- Single-quote character (written via its code point to keep character
literals simple). -/
def singleQuote : Char := Char.ofNat 39

/-- Double-quote character. -/
def doubleQuote : Char := Char.ofNat 34

/-- Whitespace recognized by the lexer. -/
def isWhite (c : Char) : Bool := c == ' ' || c == '\t' || c == '\n' || c == '\r'

/-- First character of an identifier. -/
def isIdentStart (c : Char) : Bool := c.isAlpha || c == '_'

/-- Subsequent character of an identifier. -/
def isIdentChar (c : Char) : Bool := c.isAlphanum || c == '_'

namespace Token

/-- Modelled from the spec: Token::maybe_consume_whitespaces (parser/tokens.rs
is not under src/). Skips zero or more insignificant whitespace characters;
it always succeeds, so it is embedded as a total function on the input. -/
def maybe_consume_whitespaces (i : Str) : Str := i.dropWhile isWhite

/-- Modelled from the spec: Token::maybe_consume_extra skips insignificant
whitespace (and comments, for which the spec gives no concrete syntax; none
of the inputs under consideration contain comments). Always succeeds. -/
def maybe_consume_extra (i : Str) : Str := i.dropWhile isWhite

/-- Modelled from the spec: Token::consume_whitespaces, requiring at least
one whitespace character. -/
def consume_whitespaces (i : Str) : Except NomErr (Str × Unit) :=
  match i with
  | c :: rest =>
    if isWhite c then .ok (rest.dropWhile isWhite, ())
    else .error (NomErr.error "whitespace" ErrorKind.Char)
  | [] => .error (NomErr.error "whitespace" ErrorKind.Char)

/-- Modelled from the spec: a single-character token recognizer such as
Token::add or Token::comma; returns the matched lexeme. -/
def single (c : Char) (i : Str) : Except NomErr (Str × String) :=
  match i with
  | a :: rest =>
    if a = c then .ok (rest, String.singleton c)
    else .error (NomErr.error "token" ErrorKind.Char)
  | [] => .error (NomErr.error "token" ErrorKind.Char)

/-- Modelled from the spec: Token::add. -/
def add : Str → Except NomErr (Str × String) := single '+'

/-- Modelled from the spec: Token::sub. -/
def sub : Str → Except NomErr (Str × String) := single '-'

/-- Modelled from the spec: Token::mul. -/
def mul : Str → Except NomErr (Str × String) := single '*'

/-- Modelled from the spec: Token::div. -/
def div : Str → Except NomErr (Str × String) := single '/'

/-- Modelled from the spec: Token::left_parenthesis. -/
def left_parenthesis : Str → Except NomErr (Str × String) := single '('

/-- Modelled from the spec: Token::right_parenthesis. -/
def right_parenthesis : Str → Except NomErr (Str × String) := single ')'

/-- Modelled from the spec: Token::equal. -/
def equal : Str → Except NomErr (Str × String) := single '='

/-- Modelled from the spec: Token::semicolon. -/
def semicolon : Str → Except NomErr (Str × String) := single ';'

/-- Modelled from the spec: Token::comma. -/
def comma : Str → Except NomErr (Str × String) := single ','

/-- Modelled from the spec: Token::colon. -/
def colon : Str → Except NomErr (Str × String) := single ':'

/-- Modelled from the spec: Token::is_operator classifies the characters the
expression parser treats as operator tokens (the four arithmetic operators
and the two parentheses of section 4.3). -/
def is_operator (c : Char) : Bool :=
  c == '+' || c == '-' || c == '*' || c == '/' || c == '(' || c == ')'

/-- Modelled from the spec: Token::identifier — a letter or underscore
followed by letters, digits or underscores. -/
def identifier (i : Str) : Except NomErr (Str × String) :=
  match i with
  | c :: rest =>
    if isIdentStart c then
      .ok (rest.dropWhile isIdentChar, String.mk (c :: rest.takeWhile isIdentChar))
    else .error (NomErr.error "identifier" ErrorKind.Alpha)
  | [] => .error (NomErr.error "identifier" ErrorKind.Alpha)

/-- Modelled from the spec: Token::mut_tok recognizes the keyword mut; it must
not match a longer identifier such as mut_x_99 (constructs.rs test
t_var_assign_valid), so the following character may not be an identifier
character. -/
def mut_tok (i : Str) : Except NomErr (Str × Unit) :=
  match i with
  | 'm' :: 'u' :: 't' :: rest =>
    match rest with
    | c :: _ =>
      if isIdentChar c then .error (NomErr.error "mut" ErrorKind.Tag)
      else .ok (rest, ())
    | [] => .ok ([], ())
  | _ => .error (NomErr.error "mut" ErrorKind.Tag)

/-- Modelled from the spec: Token::char_constant, a single character between
single quotes (escape sequences are not exercised by any claim). -/
def char_constant (i : Str) : Except NomErr (Str × Char) :=
  match i with
  | a :: b :: c :: rest =>
    if a = singleQuote ∧ c = singleQuote ∧ b ≠ singleQuote then .ok (rest, b)
    else .error (NomErr.error "char" ErrorKind.Char)
  | _ => .error (NomErr.error "char" ErrorKind.Char)

/-- Modelled from the spec: Token::string_constant, any characters between
double quotes. -/
def string_constant (i : Str) : Except NomErr (Str × String) :=
  match i with
  | a :: rest =>
    if a = doubleQuote then
      match rest.dropWhile (fun c => c != doubleQuote) with
      | b :: rest2 =>
        if b = doubleQuote then
          .ok (rest2, String.mk (rest.takeWhile (fun c => c != doubleQuote)))
        else .error (NomErr.error "string" ErrorKind.Tag)
      | [] => .error (NomErr.error "string" ErrorKind.Tag)
    else .error (NomErr.error "string" ErrorKind.Tag)
  | [] => .error (NomErr.error "string" ErrorKind.Tag)

/-- Decimal value of a digit run. -/
def digitsToNat (l : List Char) : Nat :=
  l.foldl (fun acc c => acc * 10 + (c.toNat - 48)) 0

/-- Modelled from the spec: Token::int_constant, one or more digits. -/
def int_constant (i : Str) : Except NomErr (Str × Int) :=
  match i.takeWhile Char.isDigit with
  | [] => .error (NomErr.error "int" ErrorKind.Digit)
  | ds => .ok (i.dropWhile Char.isDigit, Int.ofNat (digitsToNat ds))

end Token

/-- A parsed float literal; since no claim inspects floating-point values,
the literal is kept as its integral and fractional digit runs. -/
structure FloatLit where
  ip : Nat
  fp : Nat
deriving DecidableEq, Repr

/-- Modelled from the spec: Token::float_constant, digits, a dot, then
digits (the grammar comment on Construct::constant: num-run . num-run). -/
def Token.float_constant (i : Str) : Except NomErr (Str × FloatLit) :=
  match i.takeWhile Char.isDigit with
  | [] => .error (NomErr.error "float" ErrorKind.Digit)
  | ds =>
    match i.dropWhile Char.isDigit with
    | '.' :: rest =>
      match rest.takeWhile Char.isDigit with
      | [] => .error (NomErr.error "float" ErrorKind.Digit)
      | fs => .ok (rest.dropWhile Char.isDigit, ⟨Token.digitsToNat ds, Token.digitsToNat fs⟩)
    | _ => .error (NomErr.error "float" ErrorKind.Digit)

/-! Value model: constants (value/constant.rs is not under src/; the shape
below is modelled from its uses in constructs.rs: Constant::new(kind)
followed by with_cv / with_sv / with_iv / with_fv). -/

/-- Modelled from the spec: ConstKind, the four literal kinds of section 4.2
(bool is excluded from literals, section 8). -/
inductive ConstKind where
  | Char
  | Str
  | Int
  | Float
deriving DecidableEq, Repr

/-- Modelled from the spec: a Constant value, carrying its kind and at most
one of the four payloads. -/
structure Constant where
  kind : ConstKind
  cv : Option Char
  sv : Option String
  iv : Option Int
  fv : Option FloatLit
deriving DecidableEq, Repr

/-- Constant::new. -/
def Constant.new (k : ConstKind) : Constant := ⟨k, none, none, none, none⟩

/-- Constant::with_cv. -/
def Constant.with_cv (c : Constant) (v : Char) : Constant := { c with cv := some v }

/-- Constant::with_sv. -/
def Constant.with_sv (c : Constant) (v : String) : Constant := { c with sv := some v }

/-- Constant::with_iv. -/
def Constant.with_iv (c : Constant) (v : Int) : Constant := { c with iv := some v }

/-- Constant::with_fv. -/
def Constant.with_fv (c : Constant) (v : FloatLit) : Constant := { c with fv := some v }

/-- Modelled from the spec: the operators of instruction::Operator that the
expression parser recognizes (instruction/operator.rs is not under src/). -/
inductive Operator where
  | add
  | sub
  | mul
  | div
  | leftParenthesis
  | rightParenthesis
deriving DecidableEq, Repr

/-- Modelled from the spec: Operator::new maps an operator lexeme to its
Operator; it is only ever called on the six lexemes produced by the token
alternation in ShuntingYard::operator, so any other string (unreachable
there) simply falls through to the final rightParenthesis arm. -/
def Operator.new (tok : String) : Operator :=
  if tok = "+" then .add
  else if tok = "-" then .sub
  else if tok = "*" then .mul
  else if tok = "/" then .div
  else if tok = "(" then .leftParenthesis
  else .rightParenthesis

/-- Modelled from the spec: Operator::precedence — multiplication/division
bind tighter than addition/subtraction (section 4.3); the parenthesis
pseudo-operators rank below every arithmetic operator so that a reduction
never crosses a left parenthesis left on the stack. -/
def Operator.precedence : Operator → Nat
  | .add | .sub => 1
  | .mul | .div => 2
  | .leftParenthesis | .rightParenthesis => 0

/-- Modelled from the spec: Operator::is_left_associative — every operator of
the observed grammar is left-associative (sections 4.3 and 9). -/
def Operator.is_left_associative (_ : Operator) : Bool := true

/-- The AST nodes (Box of dyn Instruction values) that the parsers under
verification can build: literal constants, function calls, variable
references and binary operations. Argument lists hold instructions, as in
FunctionCall's Vec of boxed instructions. -/
inductive Instruction where
  | constant (c : Constant)
  | functionCall (name : String) (args : List Instruction)
  | var (name : String)
  | binaryOp (lhs rhs : Instruction) (op : Operator)

/-- Modelled from the spec: the FunctionCall node under construction
(instruction/function_call.rs is not under src/; shape taken from its uses
in constructs.rs: FunctionCall::new(name) and add_arg). -/
structure FunctionCall where
  fn_name : String
  args : List Instruction

/-- FunctionCall::new. -/
def FunctionCall.new (name : String) : FunctionCall := ⟨name, []⟩

/-- Modelled from the spec: FunctionCall::add_arg pushes one (boxed)
argument at the end of the call's argument list; constructs.rs only ever
passes constants here. -/
def FunctionCall.add_arg (fc : FunctionCall) (arg : Constant) : FunctionCall :=
  { fc with args := fc.args ++ [Instruction.constant arg] }

/-- Modelled from the spec: the VarAssign node (mutability flag of the
binding, assigned symbol, assigned constant), from its uses in
constructs.rs: VarAssign::new(mutable, symbol, constant). -/
structure VarAssign where
  mutable : Bool
  symbol : String
  value : Constant
deriving DecidableEq, Repr

namespace Construct

/-- Construct::constant (constructs.rs lines 30-48): each of the four
literal recognizers is tried through opt on the successively remaining
input; exactly one may have matched, otherwise the result is nom's fatal
Err::Failure. -/
def constant (input : Str) : Except NomErr (Str × Constant) :=
  match opt Token.char_constant input with
  | .error e => .error e
  | .ok (input, char_value) =>
    match opt Token.string_constant input with
    | .error e => .error e
    | .ok (input, str_value) =>
      match opt Token.float_constant input with
      | .error e => .error e
      | .ok (input, float_value) =>
        match opt Token.int_constant input with
        | .error e => .error e
        | .ok (input, int_value) =>
          match char_value, str_value, int_value, float_value with
          | some c, none, none, none => .ok (input, (Constant.new ConstKind.Char).with_cv c)
          | none, some s, none, none => .ok (input, (Constant.new ConstKind.Str).with_sv s)
          | none, none, some iv, none => .ok (input, (Constant.new ConstKind.Int).with_iv iv)
          | none, none, none, some f => .ok (input, (Constant.new ConstKind.Float).with_fv f)
          | _, _, _, _ => .error (NomErr.failure "Not a valid constant" ErrorKind.OneOf)

/-- Construct::function_call_no_args (constructs.rs lines 53-59). -/
def function_call_no_args (input : Str) : Except NomErr (Str × FunctionCall) := do
  let (input, fn_id) ← Token.identifier input
  let (input, _) ← Token.left_parenthesis input
  let (input, _) ← Token.right_parenthesis input
  return (input, FunctionCall.new fn_id)

/-- Construct::arg (constructs.rs lines 64-73): whitespace, a constant,
whitespace. -/
def arg (input : Str) : Except NomErr (Str × Constant) := do
  let input := Token.maybe_consume_whitespaces input
  let (input, c) ← Construct.constant input
  let input := Token.maybe_consume_whitespaces input
  return (input, c)

/-- Construct::arg_and_comma (constructs.rs lines 74-79). -/
def arg_and_comma (input : Str) : Except NomErr (Str × Constant) := do
  let (input, c) ← Construct.arg input
  let (input, _) ← Token.comma input
  return (input, c)

/-- Construct::function_call_args (constructs.rs lines 82-99): identifier,
left parenthesis, zero or more comma-terminated arguments, then one final
argument without a comma. As in the source, no closing parenthesis is
consumed here. -/
def function_call_args (input : Str) : Except NomErr (Str × FunctionCall) := do
  let (input, fn_id) ← Token.identifier input
  let (input, _) ← Token.left_parenthesis input
  let fn_call := FunctionCall.new fn_id
  let (input, arg_vec) ← many0 Construct.arg_and_comma input
  let (input, last_arg) ← Construct.arg input
  let fn_call := (arg_vec.foldl FunctionCall.add_arg fn_call).add_arg last_arg
  return (input, fn_call)

/-- Construct::function_call (constructs.rs lines 111-116): the
zero-argument form is tried first. -/
def function_call (input : Str) : Except NomErr (Str × FunctionCall) :=
  alt2 Construct.function_call_no_args Construct.function_call_args input

/-- Construct::var_assignment (constructs.rs lines 147-163). -/
def var_assignment (input : Str) : Except NomErr (Str × VarAssign) := do
  let (input, mut_opt) ← opt Token.mut_tok input
  let input := Token.maybe_consume_whitespaces input
  let (input, id) ← Token.identifier input
  let (input, _) ← opt Token.consume_whitespaces input
  let (input, _) ← Token.equal input
  let (input, _) ← opt Token.consume_whitespaces input
  let (input, c) ← Construct.constant input
  let (input, _) ← Token.semicolon input
  match mut_opt with
  | some _ => return (input, VarAssign.mk true id c)
  | none => return (input, VarAssign.mk false id c)

/-- Modelled from the spec: Construct::variable (not present in
constructs.rs), the variable-reference operand form of section 4.3: an
identifier naming a binding. Named variable_ref because variable is a Lean
keyword. -/
def variable_ref (input : Str) : Except NomErr (Str × String) := do
  let (input, id) ← Token.identifier input
  return (input, id)

end Construct

namespace BoxConstruct

/-- Modelled from the spec: BoxConstruct::function_call boxes the parsed
FunctionCall into a dyn Instruction. -/
def function_call (input : Str) : Except NomErr (Str × Instruction) := do
  let (input, fc) ← Construct.function_call input
  return (input, Instruction.functionCall fc.fn_name fc.args)

/-- Modelled from the spec: BoxConstruct::variable boxes the parsed variable
reference into a dyn Instruction. Named variable_ref because variable is a
Lean keyword. -/
def variable_ref (input : Str) : Except NomErr (Str × Instruction) := do
  let (input, id) ← Construct.variable_ref input
  return (input, Instruction.var id)

/-- The boxing of Construct::constant into a dyn Instruction implicit in the
alternation of ShuntingYard::operand. -/
def boxedConstant (input : Str) : Except NomErr (Str × Instruction) := do
  let (input, c) ← Construct.constant input
  return (input, Instruction.constant c)

end BoxConstruct

/-! The shunting-yard expression parser (parser/shunting_yard.rs). Its state
is an operator stack and an output stack of already-built sub-expressions
(crate::utils::{Stack, Queue} are not under src/; section 4.3 describes both
as stacks, with a reduction popping the right operand first and the left
operand second, which also matches the passing source test
t_sy_execute_natural_order). Both stacks are embedded as lists whose head is
the most recently pushed element. Since the Rust methods mutate self even
when they return an error (pops performed before a failed pop are not undone,
and ShuntingYard::parse keeps using the same self after a recoverable error
breaks its loop), every embedded method returns the resulting state next to
its nom result. -/

/-- The ShuntingYard parser state: operator stack and output stack, heads
being the tops. -/
structure ShuntingYard where
  operators : List Operator
  output : List Instruction

/-- The error value built by ShuntingYard::reduce_output on every failed
pop. -/
def invalidBinExpr : NomErr := NomErr.error "Invalid binary expression" ErrorKind.OneOf

/-- ShuntingYard::reduce_output (shunting_yard.rs lines 20-56): pop the right
operand, then the left operand, then an operator, and push the combined
BinaryOp; each missing pop yields the recoverable invalid-binary-expression
error, with the pops already performed left undone. -/
def ShuntingYard.reduce_output (sy : ShuntingYard) : ShuntingYard × Option NomErr :=
  match sy.output with
  | [] => (sy, some invalidBinExpr)
  | rhs :: out1 =>
    match out1 with
    | [] => ({ sy with output := [] }, some invalidBinExpr)
    | lhs :: out2 =>
      match sy.operators with
      | [] => ({ sy with output := out2 }, some invalidBinExpr)
      | op :: ops => (⟨ops, Instruction.binaryOp lhs rhs op :: out2⟩, none)

/-- The while-loop of the arithmetic-operator branch of
ShuntingYard::operator (lines 76-82): while the stack top has strictly
higher precedence than the incoming operator, or equal precedence with the
incoming operator left-associative, perform one reduce_output. Written as
structural recursion on the operator stack, which reduce_output pops one
element from at each iteration; the inlined reduction body mirrors
ShuntingYard.reduce_output arm for arm, partial pops on error included. -/
def reduceWhileGo (incoming : Operator) :
    List Operator → List Instruction → List Operator × List Instruction × Option NomErr
  | [], out => ([], out, none)
  | top :: ops, out =>
    if top.precedence > incoming.precedence ∨
        (top.precedence = incoming.precedence ∧ incoming.is_left_associative = true) then
      match out with
      | [] => (top :: ops, [], some invalidBinExpr)
      | [_] => (top :: ops, [], some invalidBinExpr)
      | rhs :: lhs :: out2 => reduceWhileGo incoming ops (Instruction.binaryOp lhs rhs top :: out2)
    else (top :: ops, out, none)

/-- The while-loop of the right-parenthesis branch of ShuntingYard::operator
(lines 87-89): while the stack top is not a left parenthesis, perform one
reduce_output; the loop also mirrors reduce_output's partial pops on
error. -/
def reduceUntilLParenGo :
    List Operator → List Instruction → List Operator × List Instruction × Option NomErr
  | [], out =>
    match out with
    | [] => ([], [], some invalidBinExpr)
    | [_] => ([], [], some invalidBinExpr)
    | _ :: _ :: out2 => ([], out2, some invalidBinExpr)
  | op :: ops, out =>
    if op = Operator.leftParenthesis then (op :: ops, out, none)
    else
      match out with
      | [] => (op :: ops, [], some invalidBinExpr)
      | [_] => (op :: ops, [], some invalidBinExpr)
      | rhs :: lhs :: out2 => reduceUntilLParenGo ops (Instruction.binaryOp lhs rhs op :: out2)

/-- The drain loop at the end of ShuntingYard::parse (lines 182-184): while
the operator stack is non-empty, perform one reduce_output; an error aborts
parse immediately through the question-mark operator. -/
def drainGo : List Operator → List Instruction → List Operator × List Instruction × Option NomErr
  | [], out => ([], out, none)
  | op :: ops, out =>
    match out with
    | [] => (op :: ops, [], some invalidBinExpr)
    | [_] => (op :: ops, [], some invalidBinExpr)
    | rhs :: lhs :: out2 => drainGo ops (Instruction.binaryOp lhs rhs op :: out2)

/-- The alternation of the six operator tokens in ShuntingYard::operator
(lines 61-68). -/
def opToken : Str → Except NomErr (Str × String) :=
  alt2 Token.add (alt2 Token.sub (alt2 Token.mul (alt2 Token.div
    (alt2 Token.left_parenthesis Token.right_parenthesis))))

/-- ShuntingYard::operator (shunting_yard.rs lines 58-103): consume one
operator token; an arithmetic operator first reduces while the stack top
binds at least as tightly (strictly for right-associative incomers), then is
pushed; a left parenthesis is pushed unconditionally; a right parenthesis
reduces until a left parenthesis is on top and discards it (the fall-through
match arm building the unclosed-right-parenthesis error is kept even though
the loop can only exit cleanly with a left parenthesis on top). -/
def ShuntingYard.operator (sy : ShuntingYard) (input : Str) :
    ShuntingYard × Except NomErr Str :=
  let input := Token.maybe_consume_extra input
  match opToken input with
  | .error e => (sy, .error e)
  | .ok (input, tok) =>
    let input := Token.maybe_consume_extra input
    let op := Operator.new tok
    if op ≠ Operator.leftParenthesis ∧ op ≠ Operator.rightParenthesis then
      match reduceWhileGo op sy.operators sy.output with
      | (ops, out, some e) => (⟨ops, out⟩, .error e)
      | (ops, out, none) => (⟨op :: ops, out⟩, .ok input)
    else if op = Operator.leftParenthesis then
      (⟨op :: sy.operators, sy.output⟩, .ok input)
    else
      match reduceUntilLParenGo sy.operators sy.output with
      | (ops, out, some e) => (⟨ops, out⟩, .error e)
      | (ops, out, none) =>
        match ops with
        | Operator.leftParenthesis :: rest => (⟨rest, out⟩, .ok input)
        | other => (⟨other, out⟩, .error (NomErr.error "Unclosed right parenthesis" ErrorKind.OneOf))

/-- The alternation of the three operand forms in ShuntingYard::operand
(lines 106-110): function call, then literal constant, then variable
reference. -/
def operandToken : Str → Except NomErr (Str × Instruction) :=
  alt2 BoxConstruct.function_call (alt2 BoxConstruct.boxedConstant BoxConstruct.variable_ref)

/-- ShuntingYard::operand (shunting_yard.rs lines 105-115): parse one
operand and push it onto the output. -/
def ShuntingYard.operand (sy : ShuntingYard) (input : Str) :
    ShuntingYard × Except NomErr Str :=
  match operandToken input with
  | .error e => (sy, .error e)
  | .ok (input, expr) => (⟨sy.operators, expr :: sy.output⟩, .ok input)

/-- ShuntingYard::handle_token (shunting_yard.rs lines 117-136): skip
whitespace, dispatch on whether the next character is an operator character,
then skip whitespace again. An empty input is the recoverable
not-a-valid-binary-expression error. -/
def ShuntingYard.handle_token (sy : ShuntingYard) (input : Str) :
    ShuntingYard × Except NomErr Str :=
  let input := Token.maybe_consume_extra input
  match input.head? with
  | none => (sy, .error (NomErr.error "Not a valid binary expression" ErrorKind.OneOf))
  | some c =>
    match (if Token.is_operator c then sy.operator input else sy.operand input) with
    | (sy2, .error e) => (sy2, .error e)
    | (sy2, .ok input2) => (sy2, .ok (Token.maybe_consume_extra input2))

/-- The loop of ShuntingYard::parse (lines 164-177), with the state threaded
explicitly: a recoverable error of kind OneOf breaks the loop (keeping the
state the failed call left behind), any other error aborts parse, and a
token round that consumes nothing breaks. The fuel passed by parse is
input.length + 1, which is enough because every consuming round shortens the
input; when fuel runs out the loop breaks exactly as on a non-consuming
round (unreachable for these parsers, which only ever consume). -/
def ShuntingYard.parseLoopGo :
    Nat → ShuntingYard → Str → ShuntingYard × Str × Option NomErr
  | 0, sy, input => (sy, input, none)
  | fuel + 1, sy, input =>
    match sy.handle_token input with
    | (sy2, .error (NomErr.error _ ErrorKind.OneOf)) => (sy2, input, none)
    | (sy2, .error e) => (sy2, input, some e)
    | (sy2, .ok new_i) =>
      if new_i = input then (sy2, new_i, none)
      else ShuntingYard.parseLoopGo fuel sy2 new_i

/-- ShuntingYard::parse (shunting_yard.rs lines 148-193): handle a first
token (turning any recoverable error into the Many1
not-a-valid-binary-expression error and propagating failures), loop over the
remaining tokens, drain the operator stack, and pop the result; popping from
an empty output is the recoverable invalid-binary-expression error. -/
def ShuntingYard.parse (i : Str) : Except NomErr (Str × Instruction) :=
  let sy : ShuntingYard := ⟨[], []⟩
  match sy.handle_token i with
  | (_, .error (NomErr.error _ _)) =>
    .error (NomErr.error "Not a valid binary expression" ErrorKind.Many1)
  | (_, .error e) => .error e
  | (sy, .ok input) =>
    match ShuntingYard.parseLoopGo (input.length + 1) sy input with
    | (_, _, some e) => .error e
    | (sy, input, none) =>
      match drainGo sy.operators sy.output with
      | (_, _, some e) => .error e
      | (_, out, none) =>
        match out with
        | binop :: _ => .ok (input, binop)
        | [] => .error invalidBinExpr

/-! The interpreter-side error model (error/mod.rs) and the type system
(instruction/type_id.rs, instruction/type_instantiation.rs). -/

/-- ErrKind (error/mod.rs lines 30-36): Parsing, Interpreter or input/output
failures (the source spells the last variant IO; it is renamed Io here to
avoid clashing with the host language's namespace of the same name). -/
inductive ErrKind where
  | Parsing
  | Interpreter
  | Io
deriving DecidableEq, Repr

/-- ErrSpaceLocation (error/mod.rs lines 13-17). -/
structure ErrSpaceLocation where
  line : Nat
  offset : Nat
  input : String
deriving DecidableEq, Repr

/-- Modelled from the spec: the JinkoError consumed by the instruction
module; its constructor JinkoError::new(kind, msg, loc, input) is used by
type_instantiation.rs, matching the diagnostics data of section 6 (kind,
optional message, optional location, source reference). -/
structure JinkoError where
  kind : ErrKind
  msg : String
  loc : Option ErrSpaceLocation
  input : String
deriving DecidableEq, Repr

/-- PRIMITIVE_TYPES (type_id.rs line 6). -/
def PRIMITIVE_TYPES : List String := ["bool", "int", "float", "char", "string"]

/-- TypeId (type_id.rs lines 8-11). -/
structure TypeId where
  id : String
deriving DecidableEq, Repr

/-- TypeId::is_primitive (type_id.rs lines 22-24). -/
def TypeId.is_primitive (t : TypeId) : Bool := PRIMITIVE_TYPES.contains t.id

/-- The Rename implementation for TypeId (type_id.rs lines 27-35): primitive
type names are left untouched, any other id is replaced by the prefix
concatenated before it. Named rename because the Rust method's name is a
Lean keyword. -/
def TypeId.rename (t : TypeId) (pre : String) : TypeId :=
  if PRIMITIVE_TYPES.contains t.id then t else ⟨pre ++ t.id⟩

/-- Modelled from the spec: TypeDec, an ordered list of (field name, TypeId)
pairs defining a record type (section 3; instruction/type_dec.rs is not
under src/). -/
structure TypeDec where
  name : String
  fields : List (String × TypeId)
deriving DecidableEq, Repr

/-- Modelled from the spec: the part of the Interpreter/Context that
TypeInstantiation::execute consults — the name-to-TypeDec table of
section 4.5. -/
structure Interpreter where
  types : List (String × TypeDec)

/-- Modelled from the spec: Interpreter::get_type, exact-name lookup in the
type table. -/
def Interpreter.get_type (interp : Interpreter) (name : String) : Option TypeDec :=
  (interp.types.find? (fun p => p.1 == name)).map (fun p => p.2)

/-- Modelled from the spec: the classification result of executing an
instruction — a statement, or an expression with an optional value
(section 4.4); the value payload is irrelevant here because
TypeInstantiation::execute never produces one. -/
inductive InstrKind where
  | Statement
  | Expression (value : Option Unit)
deriving DecidableEq, Repr

/-- TypeInstantiation (type_instantiation.rs lines 8-13): a type name plus
the ordered field-value instructions. -/
structure TypeInstantiation where
  type_name : String
  fields : List Instruction

/-- TypeInstantiation::get_declaration (type_instantiation.rs lines 40-52):
resolve the type name in the interpreter's type table; an unknown name is an
Interpreter-kind cannot-find-type error. -/
def TypeInstantiation.get_declaration (ti : TypeInstantiation) (interp : Interpreter) :
    Except JinkoError TypeDec :=
  match interp.get_type ti.type_name with
  | some t => .ok t
  | none => .error ⟨ErrKind.Interpreter, "Cannot find type " ++ ti.type_name, none, ti.type_name⟩

/-- TypeInstantiation::check_fields_count (type_instantiation.rs lines
55-72): the received field count must equal the declared field count; a
mismatch is an Interpreter-kind error whose message reports the expected and
the actual counts. -/
def TypeInstantiation.check_fields_count (ti : TypeInstantiation) (type_dec : TypeDec) :
    Except JinkoError Unit :=
  if ti.fields.length = type_dec.fields.length then .ok ()
  else
    .error ⟨ErrKind.Interpreter,
      "Wrong number of arguments for call to function `" ++ ti.type_name ++
        "`: Expected " ++ toString type_dec.fields.length ++
        ", got " ++ toString ti.fields.length,
      none, ""⟩

/-- TypeInstantiation::execute (type_instantiation.rs lines 97-112): resolve
the declaration, check the field count, and then — execution of type
instantiations not being implemented — unconditionally return the
Interpreter-kind not-yet-available error (the debug println is a side effect
outside the value model). -/
def TypeInstantiation.execute (ti : TypeInstantiation) (interp : Interpreter) :
    Except JinkoError InstrKind :=
  match ti.get_declaration interp with
  | .error e => .error e
  | .ok type_dec =>
    match ti.check_fields_count type_dec with
    | .error e => .error e
    | .ok _ =>
      .error ⟨ErrKind.Interpreter, "Execution for type_instantiation is not yet available",
        none, ""⟩

/-- The index-dependent core of the arg_get builtin (builtins.rs lines
77-87): the i64 index is cast to usize (wrapping modulo 2^64, so a negative
index becomes a huge one), and the argument iterator's nth either yields the
process argument at that position or, via unwrap_or, the empty string.
Modelled from the spec in one respect: std::env::args() is passed in as an
explicit list of process arguments. -/
def arg_get (process_args : List String) (idx : Int) : String :=
  let uidx : Nat := (idx % (2 : Int) ^ 64).toNat
  ((process_args.get? uidx).getD "")

/-! Concrete-input helpers used by the theorems below. -/

/-- Embeds a Rust string literal as parser input. -/
def str (s : String) : Str := s.data

/-- The parsed integer-constant node of value n. -/
def intConst (n : Int) : Instruction :=
  Instruction.constant ((Constant.new ConstKind.Int).with_iv n)

/-- A concrete two-field type declaration. -/
def pairDec : TypeDec := ⟨"Pair", [("a", ⟨"int"⟩), ("b", ⟨"int"⟩)]⟩

/-- An interpreter whose type table holds only pairDec. -/
def pairInterp : Interpreter := ⟨[("Pair", pairDec)]⟩

/-- A concrete one-field type declaration. -/
def pointDec : TypeDec := ⟨"Point", [("x", ⟨"int"⟩)]⟩

/-- An interpreter whose type table holds only pointDec. -/
def pointInterp : Interpreter := ⟨[("Point", pointDec)]⟩

/-- C1: parsing "1 + 2 * 3" yields a tree whose root is Add with left
operand the constant 1 and right operand Mul(2, 3), and parsing
"(1 + 2) * 3" yields a root Mul whose left operand is Add(1, 2) and right
operand the constant 3 — multiplication binds tighter than addition, the
operators are left-associative, and parentheses override precedence. -/
theorem c1_precedence_and_parentheses :
    ShuntingYard.parse (str "1 + 2 * 3") =
      .ok ([], Instruction.binaryOp (intConst 1)
        (Instruction.binaryOp (intConst 2) (intConst 3) Operator.mul) Operator.add)
  ∧ ShuntingYard.parse (str "(1 + 2) * 3") =
      .ok ([], Instruction.binaryOp
        (Instruction.binaryOp (intConst 1) (intConst 2) Operator.add)
        (intConst 3) Operator.mul) :=
  ⟨rfl, rfl⟩

/-- C7: "x = 12;" parses as an immutable VarAssign of symbol x, "mut x = 12;"
parses as a mutable one, and "mut x=12;" (no whitespace around the equal
sign) still parses successfully. -/
theorem c7_var_assignment_mutability :
    Construct.var_assignment (str "x = 12;") =
      .ok ([], ⟨false, "x", (Constant.new ConstKind.Int).with_iv 12⟩)
  ∧ Construct.var_assignment (str "mut x = 12;") =
      .ok ([], ⟨true, "x", (Constant.new ConstKind.Int).with_iv 12⟩)
  ∧ Construct.var_assignment (str "mut x=12;") =
      .ok ([], ⟨true, "x", (Constant.new ConstKind.Int).with_iv 12⟩) :=
  ⟨rfl, rfl, rfl⟩

/-! Helper lemmas: the modelled token recognizers only ever fail with nom's
recoverable Err::Error, never with Err::Failure. -/

/-- A single-character token recognizer never returns Err::Failure. -/
theorem single_no_failure (c : Char) (i : Str) (m : String) (k : ErrorKind) :
    Token.single c i ≠ .error (NomErr.failure m k) := by
  unfold Token.single
  split <;> (try split) <;> simp

/-- Token::char_constant never returns Err::Failure. -/
theorem char_constant_no_failure (i : Str) (m : String) (k : ErrorKind) :
    Token.char_constant i ≠ .error (NomErr.failure m k) := by
  unfold Token.char_constant
  split <;> (try split) <;> simp

/-- Token::string_constant never returns Err::Failure. -/
theorem string_constant_no_failure (i : Str) (m : String) (k : ErrorKind) :
    Token.string_constant i ≠ .error (NomErr.failure m k) := by
  unfold Token.string_constant
  split <;> (try split) <;> (try split) <;> (try split) <;> simp

/-- Token::int_constant never returns Err::Failure. -/
theorem int_constant_no_failure (i : Str) (m : String) (k : ErrorKind) :
    Token.int_constant i ≠ .error (NomErr.failure m k) := by
  unfold Token.int_constant
  split <;> simp

/-- Token::float_constant never returns Err::Failure. -/
theorem float_constant_no_failure (i : Str) (m : String) (k : ErrorKind) :
    Token.float_constant i ≠ .error (NomErr.failure m k) := by
  unfold Token.float_constant
  split <;> (try split) <;> (try split) <;> simp

/-- opt applied to a parser that never fails fatally always succeeds. -/
theorem opt_ok_of_no_failure {α : Type} (p : Str → Except NomErr (Str × α)) (i : Str)
    (hp : ∀ m k, p i ≠ .error (NomErr.failure m k)) :
    ∃ i2 v, opt p i = .ok (i2, v) := by
  unfold opt
  cases hpi : p i with
  | ok r => exact ⟨r.1, some r.2, rfl⟩
  | error e =>
    cases e with
    | error m k => exact ⟨i, none, rfl⟩
    | failure m k => exact absurd hpi (hp m k)

/-- Construct::constant either succeeds or returns exactly the fatal
not-a-valid-constant failure: its four literal recognizers are wrapped in
opt, so the only error it can build is the Err::Failure of its final match
arm. -/
theorem constant_ok_or_failure (i : Str) :
    (∃ i2 c, Construct.constant i = .ok (i2, c)) ∨
      Construct.constant i = .error (NomErr.failure "Not a valid constant" ErrorKind.OneOf) := by
  unfold Construct.constant
  obtain ⟨i1, v1, h1⟩ := opt_ok_of_no_failure Token.char_constant i (char_constant_no_failure i)
  rw [h1]; dsimp only
  obtain ⟨i2, v2, h2⟩ := opt_ok_of_no_failure Token.string_constant i1 (string_constant_no_failure i1)
  rw [h2]; dsimp only
  obtain ⟨i3, v3, h3⟩ := opt_ok_of_no_failure Token.float_constant i2 (float_constant_no_failure i2)
  rw [h3]; dsimp only
  obtain ⟨i4, v4, h4⟩ := opt_ok_of_no_failure Token.int_constant i3 (int_constant_no_failure i3)
  rw [h4]; dsimp only
  cases v1 <;> cases v2 <;> cases v4 <;> cases v3 <;> simp

/-- alt2 preserves failure-freeness of its two branches. -/
theorem alt2_no_failure {α : Type} (p q : Str → Except NomErr (Str × α)) (i : Str)
    (hp : ∀ m k, p i ≠ .error (NomErr.failure m k))
    (hq : ∀ m k, q i ≠ .error (NomErr.failure m k)) :
    ∀ m k, alt2 p q i ≠ .error (NomErr.failure m k) := by
  intro m k
  unfold alt2
  cases hpi : p i with
  | ok r => simp
  | error e =>
    cases e with
    | error m2 k2 => exact hq m k
    | failure m2 k2 => exact absurd hpi (hp m2 k2)

/-- The operator-token alternation never returns Err::Failure. -/
theorem opToken_no_failure (i : Str) (m : String) (k : ErrorKind) :
    opToken i ≠ .error (NomErr.failure m k) := by
  unfold opToken Token.add Token.sub Token.mul Token.div Token.left_parenthesis
    Token.right_parenthesis
  exact alt2_no_failure _ _ i (single_no_failure _ i)
    (alt2_no_failure _ _ i (single_no_failure _ i)
      (alt2_no_failure _ _ i (single_no_failure _ i)
        (alt2_no_failure _ _ i (single_no_failure _ i)
          (alt2_no_failure _ _ i (single_no_failure _ i) (single_no_failure _ i))))) m k

/-- Every error produced by the precedence-reduction loop is the recoverable
invalid-binary-expression error of reduce_output. -/
theorem reduceWhileGo_error_eq (incoming : Operator) (ops : List Operator) :
    ∀ out ops2 out2 e, reduceWhileGo incoming ops out = (ops2, out2, some e) →
      e = invalidBinExpr := by
  induction ops with
  | nil => intro out ops2 out2 e h; simp [reduceWhileGo] at h
  | cons top ops ih =>
    intro out ops2 out2 e h
    unfold reduceWhileGo at h
    split at h
    · match out, h with
      | [], h => simp at h; exact h.2.2.symm
      | [x], h => simp at h; exact h.2.2.symm
      | rhs :: lhs :: out2, h => exact ih _ _ _ _ h
    · simp at h

/-- Every error produced by the right-parenthesis reduction loop is the
recoverable invalid-binary-expression error of reduce_output. -/
theorem reduceUntilLParenGo_error_eq (ops : List Operator) :
    ∀ out ops2 out2 e, reduceUntilLParenGo ops out = (ops2, out2, some e) →
      e = invalidBinExpr := by
  induction ops with
  | nil =>
    intro out ops2 out2 e h
    unfold reduceUntilLParenGo at h
    match out, h with
    | [], h => simp at h; exact h.2.2.symm
    | [x], h => simp at h; exact h.2.2.symm
    | rhs :: lhs :: out2, h => simp at h; exact h.2.2.symm
  | cons top ops ih =>
    intro out ops2 out2 e h
    unfold reduceUntilLParenGo at h
    split at h
    · simp at h
    · match out, h with
      | [], h => simp at h; exact h.2.2.symm
      | [x], h => simp at h; exact h.2.2.symm
      | rhs :: lhs :: out2, h => exact ih _ _ _ _ h

/-- Every error returned by ShuntingYard::operator — a failed token
alternation, a failed reduction, or even the unreachable
unclosed-right-parenthesis branch — is nom's recoverable Err::Error, never a
fatal Err::Failure. -/
theorem operator_errors_recoverable (sy : ShuntingYard) (input : Str) (st : ShuntingYard)
    (e : NomErr) (h : sy.operator input = (st, .error e)) : e.isRecoverable = true := by
  unfold ShuntingYard.operator at h
  dsimp only at h
  cases htok : opToken (Token.maybe_consume_extra input) with
  | error e2 =>
    rw [htok] at h
    simp at h
    cases e2 with
    | error m k => rw [← h.2]; rfl
    | failure m k => exact absurd htok (opToken_no_failure _ m k)
  | ok r =>
    obtain ⟨i1, tok⟩ := r
    rw [htok] at h
    dsimp only at h
    split at h
    · split at h
      · rename_i ops out e2 heq
        simp at h
        rw [← h.2]
        rw [reduceWhileGo_error_eq _ _ _ _ _ _ heq]
        rfl
      · simp at h
    · split at h
      · simp at h
      · split at h
        · rename_i ops out e2 heq
          simp at h
          rw [← h.2]
          rw [reduceUntilLParenGo_error_eq _ _ _ _ _ heq]
          rfl
        · split at h
          · simp at h
          · simp at h
            rw [← h.2]
            rfl

/-- A successful BoxConstruct::function_call always boxes a function-call
node. -/
theorem box_function_call_shape (i i2 : Str) (expr : Instruction)
    (h : BoxConstruct.function_call i = .ok (i2, expr)) :
    ∃ name args, expr = Instruction.functionCall name args := by
  unfold BoxConstruct.function_call at h
  cases hfc : Construct.function_call i with
  | error e => simp [hfc, bind, Except.bind] at h
  | ok r =>
    simp [hfc, bind, Except.bind, pure, Except.pure] at h
    exact ⟨r.2.fn_name, r.2.args, h.2.symm⟩

/-- A successful boxed Construct::constant always boxes a constant node. -/
theorem boxed_constant_shape (i i2 : Str) (expr : Instruction)
    (h : BoxConstruct.boxedConstant i = .ok (i2, expr)) :
    ∃ c, expr = Instruction.constant c := by
  unfold BoxConstruct.boxedConstant at h
  cases hc : Construct.constant i with
  | error e => simp [hc, bind, Except.bind] at h
  | ok r =>
    simp [hc, bind, Except.bind, pure, Except.pure] at h
    exact ⟨r.2, h.2.symm⟩

/-- The operand alternation can never produce a variable-reference node:
when the function-call branch fails, Construct::constant either succeeds or
fails fatally, and a fatal failure aborts the alternation before the
variable branch is tried. -/
theorem operandToken_never_var (i i2 : Str) (expr : Instruction)
    (h : operandToken i = .ok (i2, expr)) : ∀ nm, expr ≠ Instruction.var nm := by
  intro nm
  unfold operandToken alt2 at h
  cases hfc : BoxConstruct.function_call i with
  | ok r =>
    rw [hfc] at h
    dsimp only at h
    obtain ⟨name, args, hshape⟩ := box_function_call_shape i i2 expr (by rw [hfc, ← h])
    simp [hshape]
  | error e =>
    rw [hfc] at h
    cases e with
    | failure m k => dsimp only at h; simp at h
    | error m k =>
      dsimp only at h
      rcases constant_ok_or_failure i with ⟨i3, c, hc⟩ | hc
      · have hbc : BoxConstruct.boxedConstant i = .ok (i3, Instruction.constant c) := by
          unfold BoxConstruct.boxedConstant
          simp [hc, bind, Except.bind, pure, Except.pure]
        rw [hbc] at h
        dsimp only at h
        have h2 := h
        simp at h2
        simp [← h2.2]
      · have hbc : BoxConstruct.boxedConstant i =
            .error (NomErr.failure "Not a valid constant" ErrorKind.OneOf) := by
          unfold BoxConstruct.boxedConstant
          simp [hc, bind, Except.bind]
        rw [hbc] at h
        dsimp only at h
        simp at h

/-- A successful ShuntingYard::operand pushes exactly one node onto the
output, and that node is never a variable reference. -/
theorem operand_never_var (sy : ShuntingYard) (input : Str) (sy2 : ShuntingYard) (rest : Str)
    (h : sy.operand input = (sy2, .ok rest)) :
    ∃ e, sy2.output = e :: sy.output ∧ ∀ nm, e ≠ Instruction.var nm := by
  unfold ShuntingYard.operand at h
  cases hot : operandToken input with
  | error e => rw [hot] at h; simp at h
  | ok r =>
    obtain ⟨i2, expr⟩ := r
    rw [hot] at h
    dsimp only at h
    injection h with h1 h2
    injection h2 with h2
    exact ⟨expr, by rw [← h1], operandToken_never_var input i2 expr hot⟩

/-- Arguments accumulated by folding FunctionCall::add_arg are boxed
constants (or come from the fold's starting call). -/
theorem foldl_add_arg_mem (l : List Constant) (base : FunctionCall) (a : Instruction)
    (h : a ∈ (l.foldl FunctionCall.add_arg base).args) :
    a ∈ base.args ∨ ∃ c, c ∈ l ∧ a = Instruction.constant c := by
  induction l generalizing base with
  | nil => exact Or.inl h
  | cons c0 l ih =>
    simp only [List.foldl_cons] at h
    rcases ih (base.add_arg c0) h with hmem | ⟨c, hc, ha⟩
    · unfold FunctionCall.add_arg at hmem
      simp at hmem
      rcases hmem with hmem | hmem
      · exact Or.inl hmem
      · exact Or.inr ⟨c0, by simp, hmem⟩
    · exact Or.inr ⟨c, by simp [hc], ha⟩

/-- Every argument of a call parsed by Construct::function_call_args is a
boxed constant. -/
theorem function_call_args_literal (input rest : Str) (fc : FunctionCall)
    (hok : Construct.function_call_args input = .ok (rest, fc)) :
    ∀ a ∈ fc.args, ∃ c, a = Instruction.constant c := by
  unfold Construct.function_call_args at hok
  cases h1 : Token.identifier input with
  | error e => simp [h1, bind, Except.bind] at hok
  | ok r1 =>
    obtain ⟨i1, fn_id⟩ := r1
    simp only [h1, bind, Except.bind] at hok
    cases h2 : Token.left_parenthesis i1 with
    | error e => simp [h2] at hok
    | ok r2 =>
      obtain ⟨i2, lp⟩ := r2
      simp only [h2] at hok
      cases h3 : many0 Construct.arg_and_comma i2 with
      | error e => simp [h3] at hok
      | ok r3 =>
        obtain ⟨i3, arg_vec⟩ := r3
        simp only [h3] at hok
        cases h4 : Construct.arg i3 with
        | error e => simp [h4] at hok
        | ok r4 =>
          obtain ⟨i4, last_arg⟩ := r4
          simp only [h4, pure, Except.pure, Except.ok.injEq, Prod.mk.injEq] at hok
          obtain ⟨hrest, hfc⟩ := hok
          intro a ha
          rw [← hfc] at ha
          unfold FunctionCall.add_arg at ha
          simp at ha
          rcases ha with ha | ha
          · rcases foldl_add_arg_mem arg_vec (FunctionCall.new fn_id) a ha with hbase | ⟨c, _, hc⟩
            · simp [FunctionCall.new] at hbase
            · exact ⟨c, hc⟩
          · exact ⟨last_arg, ha⟩

/-- A call parsed by Construct::function_call_no_args has no arguments. -/
theorem function_call_no_args_empty (input rest : Str) (fc : FunctionCall)
    (h : Construct.function_call_no_args input = .ok (rest, fc)) : fc.args = [] := by
  unfold Construct.function_call_no_args at h
  cases h1 : Token.identifier input with
  | error e => simp [h1, bind, Except.bind] at h
  | ok r1 =>
    obtain ⟨i1, fn_id⟩ := r1
    simp only [h1, bind, Except.bind] at h
    cases h2 : Token.left_parenthesis i1 with
    | error e => simp [h2] at h
    | ok r2 =>
      obtain ⟨i2, lp⟩ := r2
      simp only [h2] at h
      cases h3 : Token.right_parenthesis i2 with
      | error e => simp [h3] at h
      | ok r3 =>
        obtain ⟨i3, rp⟩ := r3
        simp only [h3, pure, Except.pure, Except.ok.injEq, Prod.mk.injEq] at h
        rw [← h.2]
        rfl

/-- C2 counterexample: the claim states that a TypeInstantiation whose type
name resolves and whose field count matches executes successfully, producing
the constructed instance; at the concrete instantiation Point(1) against an
interpreter that registers Point with one int field, execute instead returns
the Interpreter-kind not-yet-available error, so no instance is ever
produced. -/
theorem c2_counterexample_execute_never_succeeds :
    TypeInstantiation.execute ⟨"Point", [intConst 1]⟩ pointInterp =
      .error ⟨ErrKind.Interpreter, "Execution for type_instantiation is not yet available",
        none, ""⟩ := rfl

/-- C2 (amended): for every TypeInstantiation whose type name resolves to a
registered TypeDec and whose field-value count equals the declared field
count, execute passes both checks and then returns an Interpreter-kind error
stating that type-instantiation execution is not yet available; no instance
is constructed. -/
theorem c2_amended_execute_not_yet_available (ti : TypeInstantiation) (interp : Interpreter)
    (td : TypeDec) (h1 : interp.get_type ti.type_name = some td)
    (h2 : ti.fields.length = td.fields.length) :
    ti.execute interp =
      .error ⟨ErrKind.Interpreter, "Execution for type_instantiation is not yet available",
        none, ""⟩ := by
  unfold TypeInstantiation.execute TypeInstantiation.get_declaration
  rw [h1]
  dsimp only
  unfold TypeInstantiation.check_fields_count
  rw [if_pos h2]

/-- C2 witness: the amended theorem applies to the concrete instantiation
Pair(1, 2) against an interpreter registering Pair with two fields. -/
theorem c2_amended_witness :
    TypeInstantiation.execute ⟨"Pair", [intConst 1, intConst 2]⟩ pairInterp =
      .error ⟨ErrKind.Interpreter, "Execution for type_instantiation is not yet available",
        none, ""⟩ :=
  c2_amended_execute_not_yet_available ⟨"Pair", [intConst 1, intConst 2]⟩ pairInterp pairDec
    rfl (by decide)

/-- C3 counterexample: the claim states that an operand beginning with an
identifier that is not followed by a parenthesized argument list is parsed
as a variable reference; on the concrete input "x" the operand parse instead
fails with the fatal not-a-valid-constant failure (which aborts the
alternation before the variable branch is ever tried). -/
theorem c3_counterexample_identifier_operand_fails :
    ShuntingYard.operand ⟨[], []⟩ (str "x") =
      (⟨[], []⟩, .error (NomErr.failure "Not a valid constant" ErrorKind.OneOf)) := rfl

/-- C3 (amended): at an operand position the parser tries function call,
then literal constant, pushing the first match onto the output (as on
"fn()" and on "12" below), but it can never produce a variable reference:
whenever the function-call form fails, Construct::constant either matches or
returns a fatal failure that aborts the alternation before the
variable-reference alternative is reached — so an input beginning with an
identifier not followed by a parenthesized argument list makes the operand
(and the whole expression parse, as on "x + 1") fail fatally instead of
becoming a variable reference. -/
theorem c3_amended_operand_no_variable :
    (∀ sy input sy2 rest, ShuntingYard.operand sy input = (sy2, .ok rest) →
      ∃ e, sy2.output = e :: sy.output ∧ ∀ nm, e ≠ Instruction.var nm)
  ∧ ShuntingYard.operand ⟨[], []⟩ (str "fn()") =
      (⟨[], [Instruction.functionCall "fn" []]⟩, .ok [])
  ∧ ShuntingYard.operand ⟨[], []⟩ (str "12") = (⟨[], [intConst 12]⟩, .ok [])
  ∧ ShuntingYard.parse (str "x + 1") =
      .error (NomErr.failure "Not a valid constant" ErrorKind.OneOf) :=
  ⟨operand_never_var, rfl, rfl, rfl⟩

/-- C3 witness: the amended theorem's universal part applies to the
successful operand parse of "12". -/
theorem c3_amended_witness :
    ∃ e, (ShuntingYard.mk [] [intConst 12]).output = e :: (ShuntingYard.mk [] []).output ∧
      ∀ nm, e ≠ Instruction.var nm :=
  c3_amended_operand_no_variable.1 ⟨[], []⟩ (str "12") ⟨[], [intConst 12]⟩ [] rfl

/-- C4 counterexample: the claim states that an unmatched right parenthesis
that empties the operator stack fails with a fatal, alternatives-aborting
unbalanced-parenthesis failure; on the concrete input "1)" the parse instead
fails with the recoverable (Err::Error) malformed-expression error built by
reduce_output — the same error used when a reduction merely lacks operands
or an operator. -/
theorem c4_counterexample_recoverable_unmatched_paren :
    ShuntingYard.parse (str "1)") =
      .error (NomErr.error "Invalid binary expression" ErrorKind.OneOf) := rfl

/-- C4 (amended): when a right parenthesis is processed and reduction
empties the operator stack without finding a matching left parenthesis, the
failure is the recoverable invalid-binary-expression error of a failed
reduction (concretely below, processing ")" with a lone output operand and
no operators), and in fact every error ShuntingYard::operator can return —
including its unreachable unclosed-right-parenthesis branch — is nom's
recoverable Err::Error, never a fatal Err::Failure. -/
theorem c4_amended_unmatched_paren_recoverable :
    ShuntingYard.operator ⟨[], [intConst 1]⟩ (str ")") = (⟨[], []⟩, .error invalidBinExpr)
  ∧ (∀ sy input st e, ShuntingYard.operator sy input = (st, .error e) →
      e.isRecoverable = true) :=
  ⟨rfl, operator_errors_recoverable⟩

/-- C4 witness: the amended theorem's universal part applies to the failed
right-parenthesis reduction on the concrete input ")". -/
theorem c4_amended_witness : invalidBinExpr.isRecoverable = true :=
  c4_amended_unmatched_paren_recoverable.2 ⟨[], [intConst 1]⟩ (str ")") ⟨[], []⟩
    invalidBinExpr rfl

/-- C5 counterexample: the claim states that ShuntingYard::parse returns a
parsed node only when exactly one node remains on the output after draining;
on the concrete input "1 2" the end of input leaves two constants on the
output and nothing to drain, yet parse still succeeds, returning the most
recently pushed constant 2 and silently discarding the other node. -/
theorem c5_counterexample_extra_node_parse_succeeds :
    ShuntingYard.parse (str "1 2") = .ok ([], intConst 2) := rfl

/-- C5 (amended): at end of input the remaining operators are drained by the
same reduction step, and the parse is valid whenever at least one node
remains on the output, returning the most recently pushed node and silently
discarding any extras — universally: whenever the token loop of parse ends
without an aborting error and draining the operator stack succeeds with any
node on top of the output, parse returns exactly that top node, however many
nodes remain below it; and whenever draining succeeds with an empty output,
parse fails. Concretely, on "1 2" the loop ends with two nodes and an empty
operator stack, draining keeps both, and parse returns the constant 2;
"(1+2" fails with the recoverable invalid-binary-expression error, empty
input fails with the Many1 not-a-valid-binary-expression error, and a
failing parse returns an error value carrying no tree. -/
theorem c5_amended_end_of_input_behavior :
    (∀ i sy1 input1 sy2 input2 ops binop rest,
      ShuntingYard.handle_token ⟨[], []⟩ i = (sy1, .ok input1) →
      ShuntingYard.parseLoopGo (input1.length + 1) sy1 input1 = (sy2, input2, none) →
      drainGo sy2.operators sy2.output = (ops, binop :: rest, none) →
      ShuntingYard.parse i = .ok (input2, binop))
  ∧ (∀ i sy1 input1 sy2 input2 ops,
      ShuntingYard.handle_token ⟨[], []⟩ i = (sy1, .ok input1) →
      ShuntingYard.parseLoopGo (input1.length + 1) sy1 input1 = (sy2, input2, none) →
      drainGo sy2.operators sy2.output = (ops, [], none) →
      ShuntingYard.parse i = .error invalidBinExpr)
  ∧ ShuntingYard.parse (str "(1+2") = .error invalidBinExpr
  ∧ ShuntingYard.parse (str "") =
      .error (NomErr.error "Not a valid binary expression" ErrorKind.Many1)
  ∧ ShuntingYard.parseLoopGo 2 ⟨[], [intConst 1]⟩ (str "2") =
      (⟨[], [intConst 2, intConst 1]⟩, [], none)
  ∧ drainGo [] [intConst 2, intConst 1] = ([], [intConst 2, intConst 1], none)
  ∧ ShuntingYard.parse (str "1 2") = .ok ([], intConst 2) := by
  refine ⟨?_, ?_, rfl, rfl, rfl, rfl, rfl⟩
  · intro i sy1 input1 sy2 input2 ops binop rest h1 h2 h3
    unfold ShuntingYard.parse
    dsimp only
    rw [h1]
    dsimp only
    rw [h2]
    dsimp only
    rw [h3]
  · intro i sy1 input1 sy2 input2 ops h1 h2 h3
    unfold ShuntingYard.parse
    dsimp only
    rw [h1]
    dsimp only
    rw [h2]
    dsimp only
    rw [h3]

/-- C5 witness: the amended theorem's universal part applies to the concrete
input "1 2", whose token loop ends with the two constants 1 and 2 on the
output and no operators to drain; parse returns the most recently pushed
node, the constant 2. -/
theorem c5_amended_witness : ShuntingYard.parse (str "1 2") = .ok ([], intConst 2) :=
  c5_amended_end_of_input_behavior.1 (str "1 2") ⟨[], [intConst 1]⟩ (str "2")
    ⟨[], [intConst 2, intConst 1]⟩ [] [] (intConst 2) [intConst 1] rfl rfl rfl

/-- C6: for every TypeInstantiation whose resolved TypeDec declares a field
count different from the number of supplied values, execute returns an
Interpreter-kind error whose message reports the expected (declared) and
actual (supplied) counts, and no instance is constructed (the result is this
error, not a value). -/
theorem c6_field_count_mismatch_error (ti : TypeInstantiation) (interp : Interpreter)
    (td : TypeDec) (h1 : interp.get_type ti.type_name = some td)
    (h2 : ti.fields.length ≠ td.fields.length) :
    ti.execute interp =
      .error ⟨ErrKind.Interpreter,
        "Wrong number of arguments for call to function `" ++ ti.type_name ++
          "`: Expected " ++ toString td.fields.length ++
          ", got " ++ toString ti.fields.length,
        none, ""⟩ := by
  unfold TypeInstantiation.execute TypeInstantiation.get_declaration
  rw [h1]
  dsimp only
  unfold TypeInstantiation.check_fields_count
  rw [if_neg h2]

/-- C6 witness: a type declared with 2 fields and instantiated with 3 values
produces the interpreter error reporting expected 2, got 3. -/
theorem c6_witness :
    TypeInstantiation.execute ⟨"Pair", [intConst 1, intConst 2, intConst 3]⟩ pairInterp =
      .error ⟨ErrKind.Interpreter,
        "Wrong number of arguments for call to function `Pair`: Expected 2, got 3",
        none, ""⟩ :=
  c6_field_count_mismatch_error ⟨"Pair", [intConst 1, intConst 2, intConst 3]⟩ pairInterp
    pairDec rfl (by decide)

/-- C8: the arg_get builtin always produces a string — an index within the
process-argument range (after the i64-to-usize cast) yields that argument,
and any out-of-range index, including every negative one, yields the empty
string instead of an error. The index bounds reflect the i64 range of the
source. -/
theorem c8_arg_get_in_range_or_empty (pa : List String) (idx : Int) :
    (∀ h3 : idx.toNat < pa.length, 0 ≤ idx → idx < 2 ^ 63 →
      arg_get pa idx = pa.get ⟨idx.toNat, h3⟩)
  ∧ (0 ≤ idx → idx < 2 ^ 63 → pa.length ≤ idx.toNat → arg_get pa idx = "")
  ∧ (-2 ^ 63 ≤ idx → idx < 0 → pa.length ≤ 2 ^ 63 → arg_get pa idx = "") := by
  have hpow : (2 : Int) ^ 64 = 18446744073709551616 := by norm_num
  have hpow63 : (2 : Int) ^ 63 = 9223372036854775808 := by norm_num
  refine ⟨?_, ?_, ?_⟩
  · intro h3 h1 h2
    unfold arg_get
    dsimp only
    have hm : idx % (2 : Int) ^ 64 = idx := Int.emod_eq_of_lt h1 (by omega)
    rw [hm, List.get?_eq_get h3]
    rfl
  · intro h1 h2 hlen
    unfold arg_get
    dsimp only
    have hm : idx % (2 : Int) ^ 64 = idx := Int.emod_eq_of_lt h1 (by omega)
    rw [hm, List.get?_eq_none.mpr hlen]
    rfl
  · intro h1 h2 hlen
    unfold arg_get
    dsimp only
    have hm : idx % (2 : Int) ^ 64 = idx + 2 ^ 64 := by omega
    have htn : (2 : Nat) ^ 63 ≤ (idx % (2 : Int) ^ 64).toNat := by
      rw [hm]
      omega
    rw [List.get?_eq_none.mpr (by omega)]
    rfl

/-- C8 witness: with process arguments ["prog", "one"], index 1 yields
"one", while the out-of-range index 5 and the negative index -1 both yield
the empty string. -/
theorem c8_witness :
    arg_get ["prog", "one"] 1 = "one"
  ∧ arg_get ["prog", "one"] 5 = ""
  ∧ arg_get ["prog", "one"] (-1) = "" :=
  ⟨(c8_arg_get_in_range_or_empty ["prog", "one"] 1).1 (by decide) (by decide) (by decide),
   (c8_arg_get_in_range_or_empty ["prog", "one"] 5).2.1 (by decide) (by decide) (by decide),
   (c8_arg_get_in_range_or_empty ["prog", "one"] (-1)).2.2 (by decide) (by decide) (by decide)⟩

/-- C9: the namespace-prefixing transformation on a TypeId leaves the id
unchanged when it is one of the five primitive names bool, int, float, char
and string, and otherwise replaces the id with the prefix concatenated
before the original id. -/
theorem c9_type_id_rename_primitives (t : TypeId) (pre : String) :
    ((t.id = "bool" ∨ t.id = "int" ∨ t.id = "float" ∨ t.id = "char" ∨ t.id = "string") →
      TypeId.rename t pre = t)
  ∧ (¬(t.id = "bool" ∨ t.id = "int" ∨ t.id = "float" ∨ t.id = "char" ∨ t.id = "string") →
      TypeId.rename t pre = ⟨pre ++ t.id⟩) := by
  have hmem : (PRIMITIVE_TYPES.contains t.id = true) ↔
      (t.id = "bool" ∨ t.id = "int" ∨ t.id = "float" ∨ t.id = "char" ∨ t.id = "string") := by
    simp [PRIMITIVE_TYPES, List.contains]
  constructor
  · intro h
    have hc : PRIMITIVE_TYPES.contains t.id = true := hmem.mpr h
    simp only [TypeId.rename, hc, if_true]
  · intro h
    have hf : PRIMITIVE_TYPES.contains t.id = false := by
      cases hb : PRIMITIVE_TYPES.contains t.id
      · rfl
      · exact absurd (hmem.mp hb) h
    simp only [TypeId.rename, hf, Bool.false_eq_true, if_false]

/-- C9 witness: the primitive id int is untouched by prefixing while the
nominal id Custom is prefixed. -/
theorem c9_witness :
    TypeId.rename ⟨"int"⟩ "ns_" = ⟨"int"⟩
  ∧ TypeId.rename ⟨"Custom"⟩ "ns_" = ⟨"ns_Custom"⟩ :=
  ⟨(c9_type_id_rename_primitives ⟨"int"⟩ "ns_").1 (by simp),
   (c9_type_id_rename_primitives ⟨"Custom"⟩ "ns_").2 (by simp)⟩

/-- C10: every argument accepted inside a function call's parenthesized
argument list is a boxed literal constant of one of the four literal kinds;
an identifier ("fn(x)") or a nested call ("fn(g())") in argument position
makes the argument-list parse fail, while literal arguments ("fn(1, 2)")
parse into constant argument nodes. -/
theorem c10_function_call_args_literal_constants :
    (∀ input rest fc, Construct.function_call input = .ok (rest, fc) →
      ∀ a ∈ fc.args, ∃ c, a = Instruction.constant c ∧
        (c.kind = ConstKind.Char ∨ c.kind = ConstKind.Str ∨
          c.kind = ConstKind.Int ∨ c.kind = ConstKind.Float))
  ∧ Construct.function_call (str "fn(x)") =
      .error (NomErr.failure "Not a valid constant" ErrorKind.OneOf)
  ∧ Construct.function_call (str "fn(g())") =
      .error (NomErr.failure "Not a valid constant" ErrorKind.OneOf)
  ∧ Construct.function_call (str "fn(1, 2)") =
      .ok (str ")", ⟨"fn", [intConst 1, intConst 2]⟩) := by
  refine ⟨?_, rfl, rfl, rfl⟩
  have hkind : ∀ k : ConstKind, k = ConstKind.Char ∨ k = ConstKind.Str ∨
      k = ConstKind.Int ∨ k = ConstKind.Float := by
    intro k; cases k <;> simp
  intro input rest fc h a ha
  unfold Construct.function_call alt2 at h
  cases hna : Construct.function_call_no_args input with
  | ok r =>
    rw [hna] at h
    dsimp only at h
    injection h with h2
    have hempty := function_call_no_args_empty input rest fc (by rw [hna, h2])
    rw [hempty] at ha
    simp at ha
  | error e =>
    rw [hna] at h
    cases e with
    | failure m k => dsimp only at h; simp at h
    | error m k =>
      dsimp only at h
      obtain ⟨c, hc⟩ := function_call_args_literal input rest fc h a ha
      exact ⟨c, hc, hkind c.kind⟩

/-- C10 witness: the universal part applies to the parsed call fn(1, 2),
whose first argument is the boxed integer constant 1. -/
theorem c10_witness :
    ∃ c, intConst 1 = Instruction.constant c ∧
      (c.kind = ConstKind.Char ∨ c.kind = ConstKind.Str ∨
        c.kind = ConstKind.Int ∨ c.kind = ConstKind.Float) :=
  c10_function_call_args_literal_constants.1 (str "fn(1, 2)") (str ")")
    ⟨"fn", [intConst 1, intConst 2]⟩ rfl (intConst 1) (by simp)

end Jinko
